import Mathlib

/-!
Verification development for the blogicum blog application
(models in blog/models.py, forms in blog/forms.py, views in blog/views.py,
routes in blog/urls.py). The data model and each route handler relevant to
the stated properties are embedded as executable Lean definitions, and the
properties are settled as theorems about those definitions.
-/

namespace Blogicum

/-- Insert an element into a list kept in descending order of the key,
modelling the ordering an ORDER BY key DESC clause imposes. -/
def insertDesc {α : Type} (key : α → Int) (x : α) : List α → List α
  | [] => [x]
  | y :: ys => if key y ≤ key x then x :: y :: ys else y :: insertDesc key x ys

/-- Sort a list into descending order of the key (insertion sort). -/
def sortDesc {α : Type} (key : α → Int) : List α → List α
  | [] => []
  | x :: xs => insertDesc key x (sortDesc key xs)

theorem mem_insertDesc {α : Type} (key : α → Int) (x a : α) (l : List α) :
    a ∈ insertDesc key x l ↔ a = x ∨ a ∈ l := by
  induction l with
  | nil => simp [insertDesc]
  | cons y ys ih =>
    simp only [insertDesc]
    split
    · simp [List.mem_cons]
    · simp only [List.mem_cons, ih]
      tauto

theorem pairwise_insertDesc {α : Type} (key : α → Int) (x : α) (l : List α)
    (h : l.Pairwise (fun a b => key b ≤ key a)) :
    (insertDesc key x l).Pairwise (fun a b => key b ≤ key a) := by
  induction l with
  | nil => simp [insertDesc]
  | cons y ys ih =>
    simp only [insertDesc]
    split
    · rename_i hle
      refine List.Pairwise.cons ?_ h
      intro z hz
      rcases List.mem_cons.mp hz with rfl | hz'
      · exact hle
      · exact le_trans ((List.pairwise_cons.mp h).1 z hz') hle
    · rename_i hgt
      have hxle : key x ≤ key y := le_of_lt (lt_of_not_le hgt)
      have hys := (List.pairwise_cons.mp h).2
      refine List.Pairwise.cons ?_ (ih hys)
      intro z hz
      rcases (mem_insertDesc key x z ys).mp hz with rfl | hz'
      · exact hxle
      · exact (List.pairwise_cons.mp h).1 z hz'

theorem pairwise_sortDesc {α : Type} (key : α → Int) (l : List α) :
    (sortDesc key l).Pairwise (fun a b => key b ≤ key a) := by
  induction l with
  | nil => simp [sortDesc]
  | cons x xs ih => exact pairwise_insertDesc key x _ ih

theorem mem_sortDesc {α : Type} (key : α → Int) (a : α) (l : List α) :
    a ∈ sortDesc key l ↔ a ∈ l := by
  induction l with
  | nil => simp [sortDesc]
  | cons x xs ih => simp [sortDesc, mem_insertDesc, ih]

/-- A user of the framework auth system (django.contrib.auth.models.User):
only the primary key and the username matter to the embedded views. -/
structure UserRec where
  id : Nat
  username : String
deriving DecidableEq

/-- Category model (blog/models.py): title, description, unique slug, plus
the published flag inherited from BaseModel (core/models.py, outside the
embedded sources; the spec records that BaseModel supplies a published flag
and a created timestamp). -/
structure Category where
  id : Nat
  slug : String
  is_published : Bool
deriving DecidableEq

/-- Post model (blog/models.py): title, text, pub_date, author FK (CASCADE),
nullable location FK (SET_NULL), nullable category FK (SET_NULL), optional
image, plus is_published and created_at from BaseModel. Foreign keys are
embedded as ids. -/
structure Post where
  id : Nat
  title : String
  text : String
  pub_date : Int
  author : Nat
  location : Option Nat
  category : Option Nat
  image : Option String
  is_published : Bool
  created_at : Int
deriving DecidableEq

/-- Comment model (blog/models.py): nullable author FK (on_delete CASCADE),
nullable post FK (related_name comments, on_delete CASCADE), text,
created_at. -/
structure Comment where
  id : Nat
  author : Option Nat
  post : Option Nat
  text : String
  created_at : Int
deriving DecidableEq

/-- The persistent store the ORM mediates: all rows of each model. -/
structure Db where
  users : List UserRec
  categories : List Category
  posts : List Post
  comments : List Comment
deriving DecidableEq

/-- Count of comments referencing a post through the comments relation,
as computed by annotate comment_count=Count of comments. -/
def commentCount (db : Db) (p : Post) : Nat :=
  (db.comments.filter (fun c => c.post == some p.id)).length

/-- Annotate each post of a list with its comment count. -/
def annotateComments (db : Db) (l : List Post) : List (Post × Nat) :=
  l.map (fun p => (p, commentCount db p))

/-- The category double-underscore is_published lookup used by the index
listing filter: true when the post has a category and that category row is
published; a post with a null category is excluded by the join. -/
def categoryIsPublished (db : Db) (p : Post) : Bool :=
  match p.category with
  | none => false
  | some cid =>
    match db.categories.find? (fun c => c.id == cid) with
    | none => false
    | some c => c.is_published

/-- The visibility predicate as the specification words it: the post is
published, its category is non-null and published, and its publish time is
not in the future. Stated from the spec for comparison with the view
queries embedded from the code. -/
def visibleToAnonymous (db : Db) (p : Post) (now : Int) : Bool :=
  p.is_published && categoryIsPublished db p && decide (p.pub_date ≤ now)

/-- HTTP-level failure outcomes raised by the embedded handlers. -/
inductive HttpError
  | notFound
deriving DecidableEq

/-- The page argument of a listing request as ListView.paginate_queryset
classifies it: an integer, the literal string last, or anything else. -/
inductive PageParam
  | num (n : Int)
  | last
  | invalid
deriving DecidableEq

/-- Paginator.num_pages with orphans zero and allow_empty_first_page true:
the ceiling of max 1 count divided by the page size. -/
def numPages (count pageSize : Nat) : Nat :=
  (max 1 count + pageSize - 1) / pageSize

/-- ListView.paginate_queryset over Paginator: the literal last resolves to
the final page, a non-integer raises 404, and an integer outside
1..num_pages raises 404; a valid page is the corresponding slice. -/
def paginateQueryset {α : Type} (l : List α) (pageSize : Nat) (param : PageParam) :
    Except HttpError (List α) :=
  match param with
  | .invalid => .error .notFound
  | .last => .ok ((l.drop ((numPages l.length pageSize - 1) * pageSize)).take pageSize)
  | .num n =>
    if 1 ≤ n ∧ n ≤ (numPages l.length pageSize : Int) then
      .ok ((l.drop ((n.toNat - 1) * pageSize)).take pageSize)
    else .error .notFound

/-- PostListView (blog/views.py): class queryset filters is_published true
and pub_date not after now, the ordering attribute sorts by pub_date
descending, get_queryset annotates the comment count and then filters on
the category published flag. -/
def postListView (db : Db) (now : Int) : List (Post × Nat) :=
  let base := db.posts.filter (fun p => p.is_published && decide (p.pub_date ≤ now))
  let ordered := sortDesc (fun p => p.pub_date) base
  let annotated := annotateComments db ordered
  annotated.filter (fun pc => categoryIsPublished db pc.1)

/-- PostDetailView (blog/views.py): a plain DetailView on Post; get_object
looks the post up by primary key over the unfiltered queryset and raises
404 only when no such row exists. -/
def postDetailView (db : Db) (pk : Nat) : Except HttpError Post :=
  match db.posts.find? (fun p => p.id == pk) with
  | none => .error .notFound
  | some p => .ok p

/-- ProfileView.get_queryset (blog/views.py): 404 when no user has the
requested username, otherwise the posts of that user (no visibility filter),
annotated with the comment count and ordered by pub_date descending. -/
def profileView (db : Db) (username : String) : Except HttpError (List (Post × Nat)) :=
  match db.users.find? (fun u => u.username == username) with
  | none => .error .notFound
  | some profile =>
    let posts := db.posts.filter (fun p => p.author == profile.id)
    .ok (sortDesc (fun pc => pc.1.pub_date) (annotateComments db posts))

/-- CategoryPostsView.get_queryset (blog/views.py): get_object_or_404 on
Category with the slug and is_published true, a redundant re-check of the
published flag, then the posts of that category filtered on is_published
and pub_date, annotated and ordered by pub_date descending. -/
def categoryPostsView (db : Db) (slug : String) (now : Int) :
    Except HttpError (List (Post × Nat)) :=
  match db.categories.find? (fun c => c.slug == slug && c.is_published) with
  | none => .error .notFound
  | some category =>
    if !category.is_published then .error .notFound
    else
      let posts := db.posts.filter
        (fun p => p.category == some category.id && p.is_published
          && decide (p.pub_date ≤ now))
      .ok (sortDesc (fun pc => pc.1.pub_date) (annotateComments db posts))

/-- The index route: PostListView paginated at paginate_by ten. -/
def indexPage (db : Db) (now : Int) (param : PageParam) :
    Except HttpError (List (Post × Nat)) :=
  paginateQueryset (postListView db now) 10 param

/-- The profile route: ProfileView paginated at paginate_by ten. -/
def profilePage (db : Db) (username : String) (param : PageParam) :
    Except HttpError (List (Post × Nat)) :=
  (profileView db username).bind (fun l => paginateQueryset l 10 param)

/-- The category route: CategoryPostsView paginated at paginate_by ten. -/
def categoryPage (db : Db) (slug : String) (now : Int) (param : PageParam) :
    Except HttpError (List (Post × Nat)) :=
  (categoryPostsView db slug now).bind (fun l => paginateQueryset l 10 param)

/-- Outcomes of the post mutation routes: a redirect to the login page
(LoginRequiredMixin), a redirect to the post detail page
(PostUpdateView.handle_no_permission for anonymous users), a 403
(UserPassesTestMixin default for an authenticated non-author), a 404, a
re-render of the form, or completion of the mutation. -/
inductive PostWriteOutcome
  | redirectLogin
  | redirectDetail (postId : Nat)
  | forbidden
  | notFound
  | renderForm
  | done
deriving DecidableEq

/-- The fields PostForm (blog/forms.py) declares: title, text, pub_date,
location, category, image. The author is not a form field. -/
structure PostFormData where
  title : String
  text : String
  pub_date : Int
  location : Option Nat
  category : Option Nat
  image : Option String
deriving DecidableEq

/-- Apply validated PostForm data to a post instance: exactly the declared
form fields are written; author, id, is_published, created_at are not. -/
def applyPostForm (p : Post) (f : PostFormData) : Post :=
  { p with title := f.title, text := f.text, pub_date := f.pub_date,
           location := f.location, category := f.category, image := f.image }

/-- PostUpdateView (blog/views.py): test_func loads the object (404 when
the pk is absent) and passes only for an authenticated requester equal to
the author; handle_no_permission redirects an anonymous requester to the
post detail page and lets the mixin raise 403 for an authenticated
non-author; on success the form data is saved. The requester is none for
an anonymous request. -/
def postUpdateRequest (db : Db) (pk : Nat) (user : Option Nat) (f : PostFormData) :
    PostWriteOutcome × Db :=
  match db.posts.find? (fun p => p.id == pk) with
  | none => (.notFound, db)
  | some p =>
    match user with
    | none => (.redirectDetail pk, db)
    | some u =>
      if p.author == u then
        let posts := db.posts.map (fun q => if q.id == pk then applyPostForm q f else q)
        (.done, { db with posts := posts })
      else (.forbidden, db)

/-- Deletion of a post row as the model layer performs it: the post row is
removed and, because Comment.post is declared with on_delete CASCADE
(blog/models.py), every comment row referencing the post is removed with
it. -/
def deletePost (db : Db) (postId : Nat) : Db :=
  { db with
    posts := db.posts.filter (fun p => !(p.id == postId)),
    comments := db.comments.filter (fun c => !(c.post == some postId)) }

/-- PostDeleteView (blog/views.py): LoginRequiredMixin redirects anonymous
requesters to login; get_queryset restricts to the posts of the requester,
so get_object raises 404 for a non-author or a missing post; otherwise the
post is deleted. -/
def postDeleteRequest (db : Db) (postId : Nat) (user : Option Nat) :
    PostWriteOutcome × Db :=
  match user with
  | none => (.redirectLogin, db)
  | some u =>
    match db.posts.find? (fun p => p.id == postId && p.author == u) with
    | none => (.notFound, db)
    | some _ => (.done, deletePost db postId)

/-- Default of the published flag a new post receives. Modelled from the
spec: BaseModel (core/models.py) is outside the embedded sources; the spec
lists a published flag gating public visibility, and the create form does
not include it, so the stored default is used. -/
def baseModelPublishedDefault : Bool := true

/-- PostCreateView (blog/views.py): LoginRequiredMixin redirects anonymous
requesters to login before anything is saved; for an authenticated
requester with valid form data, form_valid sets the instance author to the
requesting user and saves. -/
def postCreateRequest (db : Db) (user : Option Nat) (formValid : Bool)
    (f : PostFormData) (newId : Nat) (now : Int) : PostWriteOutcome × Db :=
  match user with
  | none => (.redirectLogin, db)
  | some u =>
    if formValid then
      let p : Post :=
        { id := newId, title := f.title, text := f.text, pub_date := f.pub_date,
          author := u, location := f.location, category := f.category,
          image := f.image, is_published := baseModelPublishedDefault,
          created_at := now }
      (.done, { db with posts := db.posts ++ [p] })
    else (.renderForm, db)

/-- The comparison object.author equals request.user of the comment views:
an anonymous requester compares unequal to every author value, including a
null author; an authenticated requester matches exactly a non-null author
with the same id. -/
def authorMatches (author : Option Nat) (user : Option Nat) : Bool :=
  match user with
  | none => false
  | some u => author == some u

/-- EditCommentView (blog/views.py): dispatch loads the comment by
comment_id via get_object_or_404 and raises 404 unless the comment author
equals the requester; only then does the update proceed. -/
def editCommentRequest (db : Db) (commentId : Nat) (user : Option Nat)
    (newText : String) : Except HttpError Db :=
  match db.comments.find? (fun c => c.id == commentId) with
  | none => .error .notFound
  | some c =>
    if authorMatches c.author user then
      let comments := db.comments.map
        (fun c2 => if c2.id == commentId then { c2 with text := newText } else c2)
      .ok { db with comments := comments }
    else .error .notFound

/-- DeleteCommentView (blog/views.py): dispatch loads the comment by
comment_id and raises 404 unless the comment author equals the requester;
only then is the comment deleted. -/
def deleteCommentRequest (db : Db) (commentId : Nat) (user : Option Nat) :
    Except HttpError Db :=
  match db.comments.find? (fun c => c.id == commentId) with
  | none => .error .notFound
  | some c =>
    if authorMatches c.author user then
      .ok { db with comments := db.comments.filter (fun c2 => !(c2.id == commentId)) }
    else .error .notFound

/-- The field list CommentForm (blog/forms.py) declares in its Meta. -/
def commentFormFields : List String := ["name", "email", "body"]

/-- The fields of the Comment model (blog/models.py). -/
def commentModelFields : List String := ["author", "post", "text", "created_at"]

/-- The text a comment instance built from submitted CommentForm data ends
up with: a model form copies submitted data into a model field only when
that field is among the declared form fields, so the text field receives
the submitted value only if the name text appears in both lists, and the
blank model default otherwise. The data argument maps a field name to the
submitted value. -/
def commentFormSaveText (data : String → String) : String :=
  if "text" ∈ commentFormFields ∧ "text" ∈ commentModelFields then data "text" else ""

/-- Outcomes of the add-comment route. -/
inductive CommentAddOutcome
  | redirectLogin
  | notFound
  | redirectPostDetail (postId : Nat)
  | renderForm
deriving DecidableEq

/-- AddCommentView.post (blog/views.py): LoginRequiredMixin redirects an
anonymous requester to login; with valid form data the parent post is
loaded by id (404 when absent), a comment instance is built from the form
data, its author and post are set, it is saved, and the response redirects
to the post detail page; invalid form data re-renders the form. -/
def addCommentRequest (db : Db) (postId : Nat) (user : Option Nat)
    (formValid : Bool) (data : String → String) (newId : Nat) (reqTime : Int) :
    CommentAddOutcome × Db :=
  match user with
  | none => (.redirectLogin, db)
  | some u =>
    if formValid then
      match db.posts.find? (fun p => p.id == postId) with
      | none => (.notFound, db)
      | some post =>
        let c : Comment :=
          { id := newId, author := some u, post := some post.id,
            text := commentFormSaveText data, created_at := reqTime }
        (.redirectPostDetail post.id, { db with comments := db.comments ++ [c] })
    else (.renderForm, db)

/-- The exact body of the response edit_profile returns to an anonymous
requester. -/
def loginRequiredMessage : String :=
  "Для доступа к этой странице необходимо войти в систему."

/-- Outcomes of the profile-edit route. The redirectLogin constructor is
part of the outcome vocabulary (it is what LoginRequiredMixin routes
produce) but edit_profile never returns it. -/
inductive ProfileEditOutcome
  | plainResponse (body : String)
  | renderForm
  | redirectProfile (username : String)
  | redirectLogin
deriving DecidableEq

/-- The edit_profile function (blog/views.py): an authenticated requester
gets the bound form page on GET or an invalid POST and a redirect to the
own profile page on a valid POST; an anonymous requester gets a plain 200
response carrying a message, with no redirect. -/
def edit_profile (user : Option UserRec) (method : String) (formValid : Bool) :
    ProfileEditOutcome :=
  match user with
  | some u =>
    if method == "POST" then
      if formValid then .redirectProfile u.username else .renderForm
    else .renderForm
  | none => .plainResponse loginRequiredMessage

/-- A sample user. -/
def exUser : UserRec := { id := 1, username := "alice" }

/-- A second sample user, never an author in the sample store. -/
def exUser2 : UserRec := { id := 2, username := "bob" }

/-- A published sample category. -/
def exCategory : Category := { id := 1, slug := "tech", is_published := true }

/-- An unpublished sample category. -/
def exCategoryHidden : Category := { id := 2, slug := "secret", is_published := false }

/-- A published sample post in the published category, authored by user 1. -/
def exPost : Post :=
  { id := 1, title := "t1", text := "x", pub_date := 5, author := 1,
    location := none, category := some 1, image := none,
    is_published := true, created_at := 0 }

/-- An unpublished sample post, otherwise like exPost. -/
def exPostUnpublished : Post := { exPost with id := 2, is_published := false }

/-- A sample comment on post 1 by user 1. -/
def exComment : Comment :=
  { id := 1, author := some 1, post := some 1, text := "hi", created_at := 0 }

/-- A small sample store exercising every model. -/
def exDb : Db :=
  { users := [exUser, exUser2],
    categories := [exCategory, exCategoryHidden],
    posts := [exPost, exPostUnpublished],
    comments := [exComment] }

/-- The sample store after the comment of exDb is edited to the text new. -/
def exDbEdited : Db := { exDb with comments := [{ exComment with text := "new" }] }

/-- Sample form data for post mutation requests. -/
def exForm : PostFormData :=
  { title := "nt", text := "nx", pub_date := 7, location := none,
    category := some 1, image := none }

/-- A store with eleven published posts in one published category, so the
index listing holds eleven rows and its last page is page two. -/
def db11 : Db :=
  { users := [exUser],
    categories := [exCategory],
    posts := (List.range 11).map (fun i =>
      { id := i + 1, title := "t", text := "x", pub_date := 0, author := 1,
        location := none, category := some 1, image := none,
        is_published := true, created_at := 0 }),
    comments := [] }

theorem authorMatches_iff (author user : Option Nat) :
    authorMatches author user = true ↔ user ≠ none ∧ author = user := by
  cases user with
  | none => simp [authorMatches]
  | some u => simp [authorMatches]

/-- C2: for every comment and every request to the edit-comment or
delete-comment route, the mutation succeeds only when the requesting
identity is authenticated and equals the comment author; for every other
identity (including anonymous, and including comments with a null author)
the request is rejected with a 404 and no new store is produced. -/
theorem C2_comment_author_only (db : Db) (cid : Nat) (u : Option Nat) (t : String) :
    (∀ db', editCommentRequest db cid u t = Except.ok db' →
      ∃ c, db.comments.find? (fun c2 => c2.id == cid) = some c ∧ u ≠ none ∧ c.author = u)
    ∧ (∀ db', deleteCommentRequest db cid u = Except.ok db' →
      ∃ c, db.comments.find? (fun c2 => c2.id == cid) = some c ∧ u ≠ none ∧ c.author = u)
    ∧ (∀ c, db.comments.find? (fun c2 => c2.id == cid) = some c →
      ¬(u ≠ none ∧ c.author = u) →
      editCommentRequest db cid u t = Except.error HttpError.notFound
      ∧ deleteCommentRequest db cid u = Except.error HttpError.notFound) := by
  refine ⟨?_, ?_, ?_⟩
  · intro db' h
    unfold editCommentRequest at h
    split at h
    · simp at h
    · rename_i c hf
      split at h
      · rename_i hm
        exact ⟨c, hf, (authorMatches_iff c.author u).mp hm⟩
      · simp at h
  · intro db' h
    unfold deleteCommentRequest at h
    split at h
    · simp at h
    · rename_i c hf
      split at h
      · rename_i hm
        exact ⟨c, hf, (authorMatches_iff c.author u).mp hm⟩
      · simp at h
  · intro c hf hne
    have hm : authorMatches c.author u = false := by
      rcases Bool.eq_false_or_eq_true (authorMatches c.author u) with h | h
      · exact absurd ((authorMatches_iff c.author u).mp h) hne
      · exact h
    constructor
    · simp [editCommentRequest, hf, hm]
    · simp [deleteCommentRequest, hf, hm]

/-- C2 witness: in the sample store, user 1 (the author of comment 1) can
edit it, and the theorem recovers that the resolved comment author is
user 1. -/
theorem C2_witness :
    ∃ c, exDb.comments.find? (fun c2 => c2.id == 1) = some c
      ∧ (some 1 : Option Nat) ≠ none ∧ c.author = some 1 :=
  (C2_comment_author_only exDb 1 (some 1) "new").1 exDbEdited (by rfl)

/-- C4 (amended): when a post is deleted, every comment referencing it is
itself deleted (Comment.post is declared with on_delete CASCADE, not
SET_NULL), so the comments do not survive with a null parent reference;
all other rows are untouched. -/
theorem C4_cascade_delete (db : Db) (pid : Nat) :
    (∀ c, c ∈ (deletePost db pid).comments ↔ c ∈ db.comments ∧ c.post ≠ some pid)
    ∧ (∀ p, p ∈ (deletePost db pid).posts ↔ p ∈ db.posts ∧ p.id ≠ pid)
    ∧ (deletePost db pid).users = db.users
    ∧ (deletePost db pid).categories = db.categories := by
  refine ⟨?_, ?_, rfl, rfl⟩
  · intro c
    simp [deletePost, List.mem_filter]
  · intro p
    simp [deletePost, List.mem_filter]

/-- C4 witness: membership in the comment table after deleting post 1 of
the sample store, instantiating the amended theorem. -/
theorem C4_witness :
    exComment ∈ (deletePost exDb 1).comments ↔
      exComment ∈ exDb.comments ∧ exComment.post ≠ some 1 :=
  (C4_cascade_delete exDb 1).1 exComment

/-- C4 counterexample: in the sample store the only comment references
post 1; after post 1 is deleted the comment table is empty, so the comment
did not survive with its parent reference set to null as the claim
states. -/
theorem C4_counterexample :
    exDb.comments = [exComment] ∧ exComment.post = some 1
    ∧ (deletePost exDb 1).comments = []
    ∧ ¬ ∃ c ∈ (deletePost exDb 1).comments, c.id = exComment.id := by
  refine ⟨rfl, rfl, by decide, by decide⟩

/-- C6: an anonymous request to the create-post route is answered with a
redirect to login and the stored posts are unchanged; a valid
authenticated request appends exactly one post whose author is the
requesting identity. -/
theorem C6_create_post (db : Db) (f : PostFormData) (newId : Nat) (now : Int)
    (formValid : Bool) :
    postCreateRequest db none formValid f newId now = (PostWriteOutcome.redirectLogin, db)
    ∧ (∀ u : Nat, ∃ p : Post,
        (postCreateRequest db (some u) true f newId now).2.posts = db.posts ++ [p]
        ∧ p.author = u) := by
  constructor
  · rfl
  · intro u
    exact ⟨_, rfl, rfl⟩

/-- C7 (amended): the LoginRequiredMixin routes (add-comment, create-post,
delete-post) answer an anonymous request with a redirect to login, but the
profile-edit route answers it with a plain 200 text response instead of a
login redirect. -/
theorem C7_login_gating (db : Db) (postId : Nat) (f : PostFormData) (newId : Nat)
    (now reqTime : Int) (formValid : Bool) (data : String → String) (method : String) :
    (addCommentRequest db postId none formValid data newId reqTime).1
      = CommentAddOutcome.redirectLogin
    ∧ (postCreateRequest db none formValid f newId now).1 = PostWriteOutcome.redirectLogin
    ∧ (postDeleteRequest db postId none).1 = PostWriteOutcome.redirectLogin
    ∧ edit_profile none method formValid
      = ProfileEditOutcome.plainResponse loginRequiredMessage :=
  ⟨rfl, rfl, rfl, rfl⟩

/-- C7 counterexample: an anonymous GET of the profile-edit route yields
the inline plain-text response, which is not a redirect to the login
page. -/
theorem C7_counterexample :
    edit_profile none "GET" true = ProfileEditOutcome.plainResponse loginRequiredMessage
    ∧ ProfileEditOutcome.plainResponse loginRequiredMessage
      ≠ ProfileEditOutcome.redirectLogin :=
  ⟨rfl, fun h => ProfileEditOutcome.noConfusion h⟩

/-- C9: every field CommentForm declares (name, email, body) is absent from
the Comment model, the model text field is absent from the form, and hence
the text of a comment built from submitted form data is always the blank
model default, never the submitted data. -/
theorem C9_comment_form_fields :
    (∀ f ∈ commentFormFields, f ∉ commentModelFields)
    ∧ "text" ∉ commentFormFields
    ∧ ∀ data : String → String, commentFormSaveText data = "" := by
  refine ⟨by decide, by decide, ?_⟩
  intro data
  have h : ¬("text" ∈ commentFormFields ∧ "text" ∈ commentModelFields) := by decide
  simp [commentFormSaveText, h]

/-- C9 witness: the form field name is not a Comment model field, and a
concrete submission leaves the comment text blank. -/
theorem C9_witness :
    "name" ∉ commentModelFields ∧ commentFormSaveText (fun _ => "anything") = "" :=
  ⟨C9_comment_form_fields.1 "name" (by decide),
   C9_comment_form_fields.2.2 (fun _ => "anything")⟩

/-- C10: when no category row with the requested slug is published (the
slug is absent entirely, or present only on unpublished rows), the
category listing route yields exactly the 404 outcome, so an unpublished
category and a missing category are indistinguishable and the posts of an
unpublished category are never listed. -/
theorem C10_unpublished_category_404 (db : Db) (slug : String) (now : Int)
    (h : ∀ c ∈ db.categories, c.slug = slug → c.is_published = false) :
    categoryPostsView db slug now = Except.error HttpError.notFound := by
  have hf : db.categories.find? (fun c => c.slug == slug && c.is_published) = none := by
    rw [List.find?_eq_none]
    intro c hc
    simp only [Bool.and_eq_true, beq_iff_eq, not_and]
    intro hslug
    rw [h c hc hslug]
    simp
  unfold categoryPostsView
  rw [hf]

/-- C10 witness: the sample store has an unpublished category with slug
secret and no other category with that slug, and the category route
answers 404 for it. -/
theorem C10_witness :
    categoryPostsView exDb "secret" 100 = Except.error HttpError.notFound :=
  C10_unpublished_category_404 exDb "secret" 100 (by decide)

theorem length_paginateQueryset {α : Type} (l : List α) (s : Nat) (param : PageParam)
    (page : List α) (h : paginateQueryset l s param = Except.ok page) :
    page.length ≤ s := by
  cases param with
  | invalid => simp [paginateQueryset] at h
  | last =>
    simp only [paginateQueryset] at h
    injection h with h
    subst h
    exact List.length_take_le _ _
  | num n =>
    simp only [paginateQueryset] at h
    split at h
    · injection h with h
      subst h
      exact List.length_take_le _ _
    · simp at h

theorem paginateQueryset_sublist {α : Type} (l : List α) (s : Nat) (param : PageParam)
    (page : List α) (h : paginateQueryset l s param = Except.ok page) :
    List.Sublist page l := by
  cases param with
  | invalid => simp [paginateQueryset] at h
  | last =>
    simp only [paginateQueryset] at h
    injection h with h
    subst h
    exact (List.take_sublist _ _).trans (List.drop_sublist _ _)
  | num n =>
    simp only [paginateQueryset] at h
    split at h
    · injection h with h
      subst h
      exact (List.take_sublist _ _).trans (List.drop_sublist _ _)
    · simp at h

theorem bind_ok_inv {α : Type} (e : Except HttpError (List α))
    (f : List α → Except HttpError (List α)) (page : List α)
    (h : e.bind f = Except.ok page) : ∃ l, e = Except.ok l ∧ f l = Except.ok page := by
  cases e with
  | error err => simp [Except.bind] at h
  | ok l => exact ⟨l, rfl, h⟩

theorem paginateQueryset_out_of_range {α : Type} (l : List α) (s : Nat) (n : Int)
    (hn : ((numPages l.length s : Nat) : Int) < n) :
    paginateQueryset l s (PageParam.num n) = Except.error HttpError.notFound := by
  have hc : ¬(1 ≤ n ∧ n ≤ ((numPages l.length s : Nat) : Int)) :=
    fun hcon => absurd hcon.2 (not_le.mpr hn)
  simp only [paginateQueryset]
  rw [if_neg hc]

theorem paginateQueryset_last_eq {α : Type} (l : List α) :
    paginateQueryset l 10 PageParam.last
      = paginateQueryset l 10 (PageParam.num ((numPages l.length 10 : Nat) : Int)) := by
  have hnp : 1 ≤ numPages l.length 10 := by
    unfold numPages
    omega
  simp only [paginateQueryset]
  rw [if_pos ⟨by exact_mod_cast hnp, le_refl _⟩]
  rw [Int.toNat_natCast]

/-- C3 (amended): each listing route (index, category, profile) returns at
most ten posts per page; at each of the three routes a numeric page number
beyond the last page of its queryset yields a 404 not-found outcome rather
than the last page; and only the literal page argument last resolves to the
final page, coinciding with a numeric request for page num_pages. -/
theorem C3_pagination (db : Db) (now : Int) (username slug : String) (param : PageParam) :
    (∀ page, indexPage db now param = Except.ok page → page.length ≤ 10)
    ∧ (∀ page, profilePage db username param = Except.ok page → page.length ≤ 10)
    ∧ (∀ page, categoryPage db slug now param = Except.ok page → page.length ≤ 10)
    ∧ (∀ n : Int, ((numPages (postListView db now).length 10 : Nat) : Int) < n →
        indexPage db now (PageParam.num n) = Except.error HttpError.notFound)
    ∧ (∀ (n : Int) (l : List (Post × Nat)), profileView db username = Except.ok l →
        ((numPages l.length 10 : Nat) : Int) < n →
        profilePage db username (PageParam.num n) = Except.error HttpError.notFound)
    ∧ (∀ (n : Int) (l : List (Post × Nat)), categoryPostsView db slug now = Except.ok l →
        ((numPages l.length 10 : Nat) : Int) < n →
        categoryPage db slug now (PageParam.num n) = Except.error HttpError.notFound)
    ∧ (∀ l : List (Post × Nat), paginateQueryset l 10 PageParam.last
        = paginateQueryset l 10 (PageParam.num ((numPages l.length 10 : Nat) : Int))) := by
  refine ⟨?_, ?_, ?_, ?_, ?_, ?_, ?_⟩
  · intro page h
    exact length_paginateQueryset _ _ _ _ h
  · intro page h
    obtain ⟨l, _, h2⟩ := bind_ok_inv _ _ _ h
    exact length_paginateQueryset _ _ _ _ h2
  · intro page h
    obtain ⟨l, _, h2⟩ := bind_ok_inv _ _ _ h
    exact length_paginateQueryset _ _ _ _ h2
  · intro n hn
    exact paginateQueryset_out_of_range _ _ _ hn
  · intro n l hl hn
    unfold profilePage
    rw [hl]
    exact paginateQueryset_out_of_range l 10 n hn
  · intro n l hl hn
    unfold categoryPage
    rw [hl]
    exact paginateQueryset_out_of_range l 10 n hn
  · intro l
    exact paginateQueryset_last_eq l

/-- C3 witness: in the eleven-post store each of the three listing routes
has eleven rows in its queryset, so its last page is page two; the theorem
applied at page three yields the 404 outcome at the index, profile and
category routes. -/
theorem C3_witness :
    indexPage db11 0 (PageParam.num 3) = Except.error HttpError.notFound
    ∧ profilePage db11 "alice" (PageParam.num 3) = Except.error HttpError.notFound
    ∧ categoryPage db11 "tech" 0 (PageParam.num 3) = Except.error HttpError.notFound := by
  refine ⟨?_, ?_, ?_⟩
  · exact (C3_pagination db11 0 "alice" "tech" (PageParam.num 3)).2.2.2.1 3 (by decide)
  · exact (C3_pagination db11 0 "alice" "tech" (PageParam.num 3)).2.2.2.2.1 3 _ rfl (by decide)
  · exact (C3_pagination db11 0 "alice" "tech" (PageParam.num 3)).2.2.2.2.2.1 3 _ rfl (by decide)

/-- C3 counterexample: the index listing of the eleven-post store holds
eleven rows, so its last page is page two; requesting page three yields a
404 outcome, not the last page the claim promises. -/
theorem C3_counterexample :
    (postListView db11 0).length = 11 ∧ numPages 11 10 = 2
    ∧ indexPage db11 0 (PageParam.num 3) = Except.error HttpError.notFound := by
  refine ⟨by decide, by decide, by rfl⟩

/-- C5 (amended): a request by an authenticated non-author to the
edit-post route is rejected with a 403 forbidden outcome and to the
delete-post route with a 404 outcome, each leaving the store unchanged;
the redirect to the post detail page is issued only to an unauthenticated
edit-post requester. -/
theorem C5_nonauthor_rejection (db : Db) (pk u : Nat) (f : PostFormData) (p : Post)
    (hfind : db.posts.find? (fun q => q.id == pk) = some p)
    (hne : p.author ≠ u)
    (huniq : ∀ q ∈ db.posts, q.id = pk → q = p) :
    postUpdateRequest db pk (some u) f = (PostWriteOutcome.forbidden, db)
    ∧ postDeleteRequest db pk (some u) = (PostWriteOutcome.notFound, db)
    ∧ postUpdateRequest db pk none f = (PostWriteOutcome.redirectDetail pk, db) := by
  have hau : (p.author == u) = false := beq_eq_false_iff_ne.mpr hne
  refine ⟨?_, ?_, ?_⟩
  · unfold postUpdateRequest
    rw [hfind]
    simp [hau]
  · simp only [postDeleteRequest]
    have hf2 : db.posts.find? (fun q => q.id == pk && q.author == u) = none := by
      rw [List.find?_eq_none]
      intro q hq
      simp only [Bool.and_eq_true, beq_iff_eq, not_and]
      intro hid
      have hqp := huniq q hq hid
      subst hqp
      exact hne
    rw [hf2]
  · unfold postUpdateRequest
    rw [hfind]

/-- C5 witness: in the sample store user 2 is authenticated and is not the
author of post 1; the edit request yields 403, the delete request yields
404, and an anonymous edit request is redirected to the detail page. -/
theorem C5_witness :
    postUpdateRequest exDb 1 (some 2) exForm = (PostWriteOutcome.forbidden, exDb)
    ∧ postDeleteRequest exDb 1 (some 2) = (PostWriteOutcome.notFound, exDb)
    ∧ postUpdateRequest exDb 1 none exForm = (PostWriteOutcome.redirectDetail 1, exDb) :=
  C5_nonauthor_rejection exDb 1 2 exForm exPost (by decide) (by decide) (by decide)

/-- C5 counterexample: the rejection an authenticated non-author receives
from the edit-post route is the 403 forbidden outcome, which is not the
redirect to the post detail page the claim promises. -/
theorem C5_counterexample :
    (postUpdateRequest exDb 1 (some 2) exForm).1 = PostWriteOutcome.forbidden
    ∧ PostWriteOutcome.forbidden ≠ PostWriteOutcome.redirectDetail 1
    ∧ (postDeleteRequest exDb 1 (some 2)).1 = PostWriteOutcome.notFound := by
  refine ⟨by decide, by decide, by decide⟩

theorem mem_annotateComments (db : Db) (l : List Post) (p : Post) (n : Nat) :
    (p, n) ∈ annotateComments db l ↔ p ∈ l ∧ n = commentCount db p := by
  unfold annotateComments
  rw [List.mem_map]
  constructor
  · rintro ⟨q, hq, heq⟩
    cases heq
    exact ⟨hq, rfl⟩
  · rintro ⟨hp, rfl⟩
    exact ⟨p, hp, rfl⟩

theorem mem_postListView (db : Db) (now : Int) (p : Post) (n : Nat) :
    (p, n) ∈ postListView db now ↔
      p ∈ db.posts ∧ n = commentCount db p ∧ visibleToAnonymous db p now = true := by
  unfold postListView
  rw [List.mem_filter, mem_annotateComments, mem_sortDesc, List.mem_filter]
  unfold visibleToAnonymous
  constructor
  · rintro ⟨⟨⟨hmem, hcond⟩, hcnt⟩, hcat⟩
    rw [Bool.and_eq_true, decide_eq_true_eq] at hcond
    refine ⟨hmem, hcnt, ?_⟩
    rw [Bool.and_eq_true, Bool.and_eq_true, decide_eq_true_eq]
    exact ⟨⟨hcond.1, hcat⟩, hcond.2⟩
  · rintro ⟨hmem, hcnt, hvis⟩
    rw [Bool.and_eq_true, Bool.and_eq_true, decide_eq_true_eq] at hvis
    refine ⟨⟨⟨hmem, ?_⟩, hcnt⟩, hvis.1.2⟩
    rw [Bool.and_eq_true, decide_eq_true_eq]
    exact ⟨hvis.1.1, hvis.2⟩

/-- C1 (amended): for every stored post, membership in the index listing is
equivalent to the spec visibility predicate (published, category non-null
and published, publish time not in the future); but the detail route
applies no such predicate: it retrieves a post by id for every stored post,
visible or not, so the predicate is not applied identically by the listing
and the detail view. -/
theorem C1_visibility (db : Db) (now : Int) (p : Post) (hp : p ∈ db.posts) :
    ((∃ n, (p, n) ∈ postListView db now) ↔ visibleToAnonymous db p now = true)
    ∧ ∃ q, postDetailView db p.id = Except.ok q ∧ q.id = p.id := by
  constructor
  · constructor
    · rintro ⟨n, hn⟩
      exact ((mem_postListView db now p n).mp hn).2.2
    · intro hvis
      exact ⟨commentCount db p, (mem_postListView db now p _).mpr ⟨hp, rfl, hvis⟩⟩
  · unfold postDetailView
    cases hf : db.posts.find? (fun q => q.id == p.id) with
    | none =>
      rw [List.find?_eq_none] at hf
      exact absurd (beq_self_eq_true p.id) (hf p hp)
    | some q =>
      have hq := List.find?_some hf
      exact ⟨q, rfl, by simpa using hq⟩

/-- C1 witness: the published sample post is both listed on the index page
and retrievable at its detail route. -/
theorem C1_witness :
    ((∃ n, (exPost, n) ∈ postListView exDb 100) ↔ visibleToAnonymous exDb exPost 100 = true)
    ∧ ∃ q, postDetailView exDb exPost.id = Except.ok q ∧ q.id = exPost.id :=
  C1_visibility exDb 100 exPost (by decide)

/-- C1 counterexample: the unpublished sample post fails the visibility
predicate and is absent from the index listing, yet its detail route
retrieves it, so a post is not retrievable-iff-visible and the predicate is
not applied by the detail view. -/
theorem C1_counterexample :
    visibleToAnonymous exDb exPostUnpublished 100 = false
    ∧ postDetailView exDb 2 = Except.ok exPostUnpublished
    ∧ ∀ pc ∈ postListView exDb 100, pc.1 ≠ exPostUnpublished := by
  refine ⟨by decide, by rfl, by decide⟩

/-- The two properties C8 asserts of every returned listing page: posts are
in non-increasing publish-time order and each carries its comment count. -/
def listingOk (db : Db) (l : List (Post × Nat)) : Prop :=
  l.Pairwise (fun a b => b.1.pub_date ≤ a.1.pub_date)
  ∧ ∀ pc ∈ l, pc.2 = commentCount db pc.1

theorem listingOk_sublist (db : Db) {l1 l2 : List (Post × Nat)}
    (hs : List.Sublist l1 l2) (h : listingOk db l2) : listingOk db l1 :=
  ⟨h.1.sublist hs, fun pc hpc => h.2 pc (hs.subset hpc)⟩

theorem listingOk_postListView (db : Db) (now : Int) :
    listingOk db (postListView db now) := by
  constructor
  · unfold postListView annotateComments
    have h1 : ((sortDesc (fun p => p.pub_date)
        (db.posts.filter (fun p => p.is_published && decide (p.pub_date ≤ now)))).map
          (fun p => (p, commentCount db p))).Pairwise
        (fun a b => b.1.pub_date ≤ a.1.pub_date) := by
      rw [List.pairwise_map]
      exact pairwise_sortDesc _ _
    exact h1.sublist (List.filter_sublist _)
  · intro pc hpc
    unfold postListView at hpc
    have hpc2 := (List.mem_filter.mp hpc).1
    unfold annotateComments at hpc2
    obtain ⟨q, hq, heq⟩ := List.mem_map.mp hpc2
    cases heq
    rfl

theorem listingOk_sortAnnotated (db : Db) (l : List Post) :
    listingOk db (sortDesc (fun pc => pc.1.pub_date) (annotateComments db l)) := by
  constructor
  · exact pairwise_sortDesc _ _
  · intro pc hpc
    rw [mem_sortDesc] at hpc
    unfold annotateComments at hpc
    obtain ⟨q, hq, heq⟩ := List.mem_map.mp hpc
    cases heq
    rfl

/-- C8: every page returned by a listing route (index, profile, category)
is ordered by non-increasing publish time (any two consecutive posts
satisfy it) and annotates each post with its comment count in the
store. -/
theorem C8_listings_annotated_ordered (db : Db) (now : Int) (username slug : String)
    (param : PageParam) :
    (∀ page, indexPage db now param = Except.ok page → listingOk db page)
    ∧ (∀ page, profilePage db username param = Except.ok page → listingOk db page)
    ∧ (∀ page, categoryPage db slug now param = Except.ok page → listingOk db page) := by
  refine ⟨?_, ?_, ?_⟩
  · intro page h
    exact listingOk_sublist db (paginateQueryset_sublist _ _ _ _ h)
      (listingOk_postListView db now)
  · intro page h
    obtain ⟨l, hp, h2⟩ := bind_ok_inv _ _ _ h
    have hl : listingOk db l := by
      unfold profileView at hp
      split at hp
      · simp at hp
      · injection hp with hp
        subst hp
        exact listingOk_sortAnnotated db _
    exact listingOk_sublist db (paginateQueryset_sublist _ _ _ _ h2) hl
  · intro page h
    obtain ⟨l, hp, h2⟩ := bind_ok_inv _ _ _ h
    have hl : listingOk db l := by
      unfold categoryPostsView at hp
      split at hp
      · simp at hp
      · split at hp
        · simp at hp
        · injection hp with hp
          subst hp
          exact listingOk_sortAnnotated db _
    exact listingOk_sublist db (paginateQueryset_sublist _ _ _ _ h2) hl

/-- C8 witness: the first index page of the eleven-post store is ordered
and correctly annotated. -/
theorem C8_witness :
    listingOk db11 ((postListView db11 0).take 10) :=
  (C8_listings_annotated_ordered db11 0 "alice" "tech" (PageParam.num 1)).1
    ((postListView db11 0).take 10) (by rfl)

end Blogicum
